import Mathlib

/-!
# NeuroGrid node client — verification development

Shallow embedding of the core of the NeuroGrid node client
(`node-client/src/core/agent.py`, `node-client/src/utils/api_client.py`,
`node-client/src/utils/crypto.py`, `node-client/src/container/docker_engine.py`)
together with theorems settling the specification claims about it.

Conventions:
* Python byte strings are `List Nat` (one entry per byte).
* Wall-clock times (`time.time()` floats) are `ℚ`.
* Fallible Python code is modelled with `Except`/`Option`/`PyOutcome`.
* Library cryptographic primitives (RSA-OAEP, AES-GCM, HMAC) are abstract
  function parameters constrained by the contracts the `cryptography`/`pyjwt`
  libraries document; the embedding itself follows the repository source.
-/

namespace NeuroGrid

/-! ## Agent task state machine — `core/agent.py`

The agent's task-relevant state (`NodeAgent.__init__`): `current_task`,
`tasks_completed`, `tasks_failed`.  Outbound WebSocket messages are the
`_send_task_*` helpers; the temporal claims are settled on the event trace an
assignment produces.  The single-threaded asyncio execution interleaves only at
`await` points, so the handler body is modelled as a sequential trace. -/

/-- A task assignment payload (`task_data` in `agent.py`): the fields the
handler and validator read. -/
structure Task where
  id : String
  model : String
  model_type : String
  input : String
  required_vram_gb : Nat
deriving DecidableEq, Repr

/-- The agent configuration fields read by task handling
(`supported_models`, `max_vram_gb`, `encrypt_results`). -/
structure AgentConfig where
  supported_models : List String
  max_vram_gb : Nat
  encrypt_results : Bool
deriving DecidableEq, Repr

/-- Task-relevant mutable state of `NodeAgent`. -/
structure AgentState where
  current_task : Option Task
  tasks_completed : Nat
  tasks_failed : Nat
deriving DecidableEq, Repr

/-- Outbound WebSocket messages produced by the `_send_task_*` helpers in
`agent.py`. -/
inductive Msg
  | task_accepted (task_id : String)
  | task_rejected (task_id : String) (reason : String)
  | task_status (task_id : String) (status : String)
  | task_result (task_id : String) (result : String)
  | task_error (task_id : String) (error : String)
deriving DecidableEq, Repr

/-- Observable events of a task's handling: a message sent on the WebSocket,
the start of `_execute_task`, and the `finally` block resetting
`self.current_task = None` (releasing the task slot). -/
inductive Event
  | sent (m : Msg)
  | execStarted (task_id : String)
  | slotReleased
deriving DecidableEq, Repr

/-- `NodeAgent._validate_task`: the model type must be among
`supported_models` and the declared VRAM must not exceed `max_vram_gb`. -/
def validate_task (cfg : AgentConfig) (t : Task) : Bool :=
  cfg.supported_models.contains t.model_type && t.required_vram_gb ≤ cfg.max_vram_gb

/-- `NodeAgent._execute_task`.  `run` is the outcome of model loading plus
model/container execution (the `model_loader`/`docker_engine` collaborators);
`encrypt` is `crypto_manager.encrypt_data`, applied when
`config['encrypt_results']` is set.  Any exception on the way lands in the
`except` branch which sends `task_error`; the `finally` block clears
`current_task` *after* the terminal message has been sent. -/
def execute_task (cfg : AgentConfig) (encrypt : String → Except String String)
    (run : Except String String) (s : AgentState) (t : Task) :
    AgentState × List Event :=
  let pre : List Event := [.execStarted t.id, .sent (.task_status t.id "running")]
  let outcome : Except String String :=
    match run with
    | .error e => .error e
    | .ok r => if cfg.encrypt_results then encrypt r else .ok r
  match outcome with
  | .ok r =>
      ({ s with current_task := none, tasks_completed := s.tasks_completed + 1 },
       pre ++ [.sent (.task_result t.id r), .slotReleased])
  | .error e =>
      ({ s with current_task := none, tasks_failed := s.tasks_failed + 1 },
       pre ++ [.sent (.task_error t.id e), .slotReleased])

/-- `NodeAgent._handle_task_assignment`: if a task is already tracked the new
one is rejected with reason `"Node busy"` and the handler returns; otherwise a
failed validation is rejected with `"Task validation failed"`; otherwise
`current_task` is set, `task_accepted` is sent (awaited to completion), and
only then the execution coroutine is scheduled. -/
def handle_task_assignment (cfg : AgentConfig) (encrypt : String → Except String String)
    (run : Except String String) (s : AgentState) (t : Task) :
    AgentState × List Event :=
  match s.current_task with
  | some _ => (s, [.sent (.task_rejected t.id "Node busy")])
  | none =>
      if validate_task cfg t then
        let s1 := { s with current_task := some t }
        let (s2, tr) := execute_task cfg encrypt run s1 t
        (s2, .sent (.task_accepted t.id) :: tr)
      else
        (s, [.sent (.task_rejected t.id "Task validation failed")])

/-- Is this event a terminal task report (`task_result` or `task_error`)? -/
def is_terminal_report : Event → Bool
  | .sent (.task_result _ _) => true
  | .sent (.task_error _ _) => true
  | _ => false

/-- Does every terminal report in the trace occur strictly after a
`slotReleased` event?  (`seen` records whether a release has occurred.) -/
def terminal_only_after_release : Bool → List Event → Bool
  | _, [] => true
  | seen, e :: rest =>
      if e = .slotReleased then terminal_only_after_release true rest
      else if is_terminal_report e then seen && terminal_only_after_release seen rest
      else terminal_only_after_release seen rest

/-- Does every `execStarted` event in the trace occur strictly after the
`task_accepted` message has been sent? -/
def accept_precedes_exec : Bool → List Event → Bool
  | _, [] => true
  | seen, e :: rest =>
      match e with
      | .execStarted _ => seen && accept_precedes_exec seen rest
      | .sent (.task_accepted _) => accept_precedes_exec true rest
      | _ => accept_precedes_exec seen rest

/-! ## Connection backoff — `utils/api_client.py`, class `ConnectionManager` -/

/-- Connection state tracked by `ConnectionManager.__init__`. -/
structure ConnectionManager where
  max_retries : Nat
  backoff_factor : ℚ
  connected : Bool
  connection_failures : Nat
  last_connection_attempt : ℚ
deriving DecidableEq, Repr

/-- `ConnectionManager.get_retry_delay`:
`min(300, self.backoff_factor ** self.connection_failures)`. -/
def ConnectionManager.get_retry_delay (cm : ConnectionManager) : ℚ :=
  min 300 (cm.backoff_factor ^ cm.connection_failures)

/-- `ConnectionManager.on_connection_success`. -/
def ConnectionManager.on_connection_success (cm : ConnectionManager) : ConnectionManager :=
  { cm with connected := true, connection_failures := 0 }

/-- `ConnectionManager.on_connection_failure` (`now` is `time.time()`). -/
def ConnectionManager.on_connection_failure (cm : ConnectionManager) (now : ℚ) :
    ConnectionManager :=
  { cm with connected := false,
            connection_failures := cm.connection_failures + 1,
            last_connection_attempt := now }

/-- The state after `n` consecutive `on_connection_failure` calls. -/
def failuresAfter (cm : ConnectionManager) (now : ℚ) : Nat → ConnectionManager
  | 0 => cm
  | n + 1 => (failuresAfter cm now n).on_connection_failure now

/-! ## Rate limiter — `utils/api_client.py`, class `CoordinatorClient`

`_check_rate_limit` prunes `request_timestamps` to the entries younger than 60
seconds and admits the request iff fewer than `rate_limit_requests` remain; it
runs at the top of `_make_request`, before the session issues any network
request.  `_track_request_time` appends the current time after a response. -/

/-- The rate-limiting state of `CoordinatorClient`. -/
structure RateLimiter where
  rate_limit_requests : Nat
  request_timestamps : List ℚ
deriving DecidableEq, Repr

/-- `CoordinatorClient._check_rate_limit` at wall-clock time `now`: prune
timestamps older than one minute, then compare against the limit.  Returns the
mutated state and the admit decision. -/
def check_rate_limit (now : ℚ) (st : RateLimiter) : RateLimiter × Bool :=
  let pruned := st.request_timestamps.filter (fun ts => decide (now - ts < 60))
  ({ st with request_timestamps := pruned },
   decide (pruned.length < st.rate_limit_requests))

/-- Observable steps of one `_make_request` call, as far as rate limiting is
concerned. -/
inductive ReqEvent
  | networkCall
deriving DecidableEq, Repr

/-- The rate-limit skeleton of `CoordinatorClient._make_request`: a rejected
request raises `"Rate limit exceeded"` with no network traffic; an admitted
one performs the network call and then records its timestamp
(`_track_request_time`). -/
def make_request (now : ℚ) (st : RateLimiter) :
    RateLimiter × Except String Unit × List ReqEvent :=
  let (st1, ok) := check_rate_limit now st
  if ok then
    ({ st1 with request_timestamps := st1.request_timestamps ++ [now] },
     .ok (), [.networkCall])
  else
    (st1, .error "Rate limit exceeded", [])

/-! ## Sandbox engine — `container/docker_engine.py`, class `DockerEngine`

Containers are tracked in `self.active_containers` keyed by docker-assigned
id; `max_containers` comes from `config['max_concurrent_containers']`.
`create_container` fails fast with `RuntimeError("Maximum number of containers
reached")` when the tracked count has reached the cap, before talking to
docker.  `remove_container` deletes from tracking only on success; docker API
outcomes are oracle parameters. -/

/-- The container-tracking state of `DockerEngine`. -/
structure DockerEngineState where
  max_containers : Nat
  active_containers : List String
deriving DecidableEq, Repr

/-- `DockerEngine.create_container`; `cid` is the id docker assigns to the new
container.  On the capped path the method raises before any container is
created, leaving the state unchanged. -/
def create_container (st : DockerEngineState) (cid : String) :
    DockerEngineState × Except String String :=
  if st.max_containers ≤ st.active_containers.length then
    (st, .error "Maximum number of containers reached")
  else
    ({ st with active_containers := cid :: st.active_containers }, .ok cid)

/-- `DockerEngine.remove_container`; `apiOk` is whether the docker
stop/remove calls succeed.  An untracked id returns `True` immediately; a
failing docker call is caught and leaves the container tracked. -/
def remove_container (st : DockerEngineState) (cid : String) (apiOk : Bool) :
    DockerEngineState × Bool :=
  if st.active_containers.contains cid then
    if apiOk then
      ({ st with active_containers := st.active_containers.erase cid }, true)
    else (st, false)
  else (st, true)

/-- `DockerEngine.start_container` / `stop_container`: they flip status fields
in `container_stats` but never change the set of tracked containers. -/
def start_or_stop_container (st : DockerEngineState) (_cid : String) :
    DockerEngineState :=
  st

/-- `DockerEngine.cleanup`: remove every tracked container (force);
`apiOk` gives the docker outcome per container id. -/
def cleanup (st : DockerEngineState) (apiOk : String → Bool) : DockerEngineState :=
  st.active_containers.foldl (fun acc cid => (remove_container acc cid (apiOk cid)).1) st

/-- The sandbox bound invariant of the spec: live instances never exceed the
configured maximum. -/
def containerInvariant (st : DockerEngineState) : Prop :=
  st.active_containers.length ≤ st.max_containers

/-! ## Cryptography — `utils/crypto.py`, class `CryptoManager`

Byte strings are `List Nat`.  RSA-OAEP(SHA-256) over the 2048-bit pair and
AES-256-GCM come from the `cryptography` library and are abstract parameters;
the theorems assume exactly the contracts that library documents (OAEP output
is 256 bytes and inverts encryption for plaintexts of at most 190 bytes;
GCM ciphertext has the plaintext's length, the tag is 16 bytes, and
decryption inverts encryption under the same key/IV/tag). -/

/-- Abstract RSA-2048 OAEP(SHA-256) operations of the key pair
(`public_key.encrypt` / `private_key.decrypt`). -/
structure RSAKeyPair where
  enc : List Nat → List Nat
  dec : List Nat → Option (List Nat)

/-- Abstract AES-256-GCM: `enc key iv data = (ciphertext, tag)`;
`dec key iv tag ciphertext` recovers the plaintext or fails. -/
structure AESGCM where
  enc : List Nat → List Nat → List Nat → List Nat × List Nat
  dec : List Nat → List Nat → List Nat → List Nat → Option (List Nat)

/-- Python's `int.to_bytes(n, 'big')`: `n` big-endian bytes of `v`. -/
def toBytesBE : Nat → Nat → List Nat
  | 0, _ => []
  | n + 1, v => toBytesBE n (v / 256) ++ [v % 256]

/-- Python's `int.from_bytes(bs, 'big')`. -/
def fromBytesBE (bs : List Nat) : Nat :=
  bs.foldl (fun a b => a * 256 + b) 0

/-- `CryptoManager._hybrid_encrypt`: a one-time AES key (`os.urandom(32)`) and
IV (`os.urandom(16)`) encrypt the data with AES-GCM, the AES key is wrapped
with RSA-OAEP, and the wire format is
`len(wrapped).to_bytes(4,'big') ++ wrapped ++ iv ++ tag ++ ciphertext`. -/
def hybrid_encrypt (rsa : RSAKeyPair) (aes : AESGCM)
    (aes_key iv data : List Nat) : List Nat :=
  toBytesBE 4 (rsa.enc aes_key).length ++ rsa.enc aes_key ++ iv ++
    (aes.enc aes_key iv data).2 ++ (aes.enc aes_key iv data).1

/-- `CryptoManager._hybrid_decrypt`: read the 4-byte wrapped-key length
(`key_length`), slice out wrapped key / IV / tag / ciphertext at the offsets
`4`, `4+key_length`, `4+key_length+16`, `4+key_length+32`, unwrap the AES key
with RSA, then decrypt with AES-GCM.  (The Python locals are inlined.) -/
def hybrid_decrypt (rsa : RSAKeyPair) (aes : AESGCM) (ed : List Nat) :
    Option (List Nat) :=
  match rsa.dec ((ed.drop 4).take (fromBytesBE (ed.take 4))) with
  | none => none
  | some aes_key =>
      aes.dec aes_key
        ((ed.drop (4 + fromBytesBE (ed.take 4))).take 16)
        ((ed.drop (4 + fromBytesBE (ed.take 4) + 16)).take 16)
        (ed.drop (4 + fromBytesBE (ed.take 4) + 32))

/-- `CryptoManager._encrypt_asymmetric`: data above 190 bytes goes through
hybrid encryption, otherwise direct RSA-OAEP. -/
def encrypt_asymmetric (rsa : RSAKeyPair) (aes : AESGCM)
    (aes_key iv data : List Nat) : List Nat :=
  if 190 < data.length then hybrid_encrypt rsa aes aes_key iv data
  else rsa.enc data

/-- `CryptoManager._decrypt_asymmetric`: inputs longer than the standard
256-byte RSA-2048 output are treated as hybrid ciphertext. -/
def decrypt_asymmetric (rsa : RSAKeyPair) (aes : AESGCM) (ed : List Nat) :
    Option (List Nat) :=
  if 256 < ed.length then hybrid_decrypt rsa aes ed
  else rsa.dec ed

/-! ### JWT tokens — `create_jwt_token` / `verify_jwt_token`

`jwt.encode`/`jwt.decode` with HS256: the signature is an abstract function of
the secret and the claim set.  `jwt.decode` verifies the signature first
(failure raises `InvalidTokenError`), then the `exp` claim (an expired token
raises `ExpiredSignatureError`); `verify_jwt_token` catches both and returns
`None`. -/

/-- The claim set `create_jwt_token` assembles: `iat = now`,
`exp = now + expiry_hours * 3600`, `iss = "neurogrid-node"`, plus the
caller-supplied payload. -/
structure JwtClaims where
  iat : ℚ
  exp : ℚ
  iss : String
  payload : List (String × String)
deriving DecidableEq, Repr

/-- A signed token: claim set plus HS256 signature (of abstract type `σ`). -/
structure Token (σ : Type) where
  claims : JwtClaims
  sig : σ
deriving DecidableEq, Repr

/-- `CryptoManager.create_jwt_token` with signing primitive `mkSig`. -/
def create_jwt_token {σ : Type} (mkSig : String → JwtClaims → σ)
    (secret : String) (now expiry_hours : ℚ)
    (payload : List (String × String)) : Token σ :=
  let c : JwtClaims :=
    { iat := now, exp := now + expiry_hours * 3600,
      iss := "neurogrid-node", payload := payload }
  ⟨c, mkSig secret c⟩

/-- `CryptoManager.verify_jwt_token` at wall-clock time `now`: a bad signature
or an `exp` in the past yields `none` (the method catches
`InvalidTokenError`/`ExpiredSignatureError` and returns `None`). -/
def verify_jwt_token {σ : Type} [DecidableEq σ] (mkSig : String → JwtClaims → σ)
    (secret : String) (now : ℚ) (t : Token σ) : Option JwtClaims :=
  if t.sig ≠ mkSig secret t.claims then none
  else if t.claims.exp < now then none
  else some t.claims

/-! ### Key rotation — `rotate_keys` and the key loaders

The on-disk key directory (`self.crypto_dir`) is an association list from file
name to raw content.  The module header of `crypto.py` imports exactly the
names listed in `cryptoGlobalNames`; `shutil` is not among them, so the
`shutil.copy2` calls in `rotate_keys` raise `NameError` as soon as a key file
exists to back up, and the `except` clause re-raises. -/

/-- Outcome of running a Python method: normal return or a raised exception. -/
inductive PyOutcome (α : Type)
  | ok (a : α)
  | raised (err : String)
deriving DecidableEq, Repr

/-- The key directory on disk. -/
structure CryptoDir where
  files : List (String × List Nat)
deriving DecidableEq, Repr

/-- Look a file up by name. -/
def CryptoDir.lookup (d : CryptoDir) (name : String) : Option (List Nat) :=
  (d.files.find? (fun p => p.1 = name)).map (·.2)

/-- Does `name` end with `suffix`?  (Model of Python's `fnmatch`-style
`'*.key'`/`'*.pem'` globbing in `rotate_keys`, as a structural list check.) -/
def nameEndsWith (name suffix : String) : Bool :=
  suffix.data.isSuffixOf name.data

/-- Write (or overwrite) a file. -/
def CryptoDir.write (d : CryptoDir) (name : String) (content : List Nat) :
    CryptoDir :=
  ⟨(name, content) :: d.files.filter (fun p => ¬ p.1 = name)⟩

/-- The module-level names `utils/crypto.py` binds via its import statements
(plus the class it defines).  Taken from the import block at the top of the
file; note the absence of `"shutil"`. -/
def cryptoGlobalNames : List String :=
  ["hashlib", "hmac", "os", "time", "json", "logging", "base64",
   "Dict", "Any", "Optional", "Tuple", "Union", "Fernet", "hashes",
   "serialization", "rsa", "padding", "PBKDF2HMAC", "Scrypt", "Cipher",
   "algorithms", "modes", "default_backend", "jwt", "Path", "CryptoManager"]

/-- `CryptoManager._load_or_generate_symmetric_key`: reuse the on-disk
`symmetric.key` whenever it exists and holds exactly 32 bytes; otherwise
write and return a fresh 32-byte key (`fresh`, modelling `os.urandom(32)`). -/
def load_or_generate_symmetric_key (d : CryptoDir) (fresh : List Nat) :
    CryptoDir × List Nat :=
  match d.lookup "symmetric.key" with
  | some k => if k.length = 32 then (d, k) else (d.write "symmetric.key" fresh, fresh)
  | none => (d.write "symmetric.key" fresh, fresh)

/-- `CryptoManager._load_or_generate_rsa_keys`: reuse `private.pem` /
`public.pem` when both exist (they were written by this code, so they parse);
otherwise generate a fresh pair and write both files. -/
def load_or_generate_rsa_keys (d : CryptoDir) (freshPriv freshPub : List Nat) :
    CryptoDir × List Nat × List Nat :=
  match d.lookup "private.pem", d.lookup "public.pem" with
  | some pr, some pu => (d, pr, pu)
  | _, _ =>
      (((d.write "private.pem" freshPriv).write "public.pem" freshPub),
       freshPriv, freshPub)

/-- `CryptoManager.rotate_keys`: create a backup directory, then for every
`*.key` and `*.pem` file evaluate `shutil.copy2(...)` — which raises
`NameError` because `crypto.py` never imports `shutil`; the `except` clause
logs and re-raises.  Were the loops to pass (no key files on disk), the method
would call the two loaders, which reuse any key files still present.  Returns
the new directory plus active symmetric/private/public key material. -/
def rotate_keys (d : CryptoDir) (freshSym freshPriv freshPub : List Nat) :
    PyOutcome (CryptoDir × List Nat × List Nat × List Nat) :=
  let toBackup := d.files.filter
    (fun p => nameEndsWith p.1 ".key" || nameEndsWith p.1 ".pem")
  if toBackup ≠ [] ∧ "shutil" ∉ cryptoGlobalNames then
    .raised "NameError: name shutil is not defined"
  else
    let (d1, sym) := load_or_generate_symmetric_key d freshSym
    let (d2, priv, pub) := load_or_generate_rsa_keys d1 freshPriv freshPub
    .ok (d2, sym, priv, pub)

/-- The backup-then-regenerate flow of `rotate_keys` as written, had the
missing `shutil` import been present: the current `*.key`/`*.pem` files are
copied into the timestamped backup directory (returned separately) and the
loaders are called with the key files still in place. -/
def rotate_keys_with_shutil (d : CryptoDir) (freshSym freshPriv freshPub : List Nat) :
    List (String × List Nat) × CryptoDir × List Nat × List Nat × List Nat :=
  let backup := d.files.filter
    (fun p => nameEndsWith p.1 ".key" || nameEndsWith p.1 ".pem")
  let (d1, sym) := load_or_generate_symmetric_key d freshSym
  let (d2, priv, pub) := load_or_generate_rsa_keys d1 freshPriv freshPub
  (backup, d2, sym, priv, pub)

/-! ### `encrypt_data` / `decrypt_data` passthrough

`encrypt_data` accepts `str`, `bytes` or `dict`.  With
`config['enable_encryption']` false it returns
`data if isinstance(data, str) else json.dumps(data)` — for a `dict` that is
its JSON serialization, and for `bytes` the call `json.dumps(b"...")` raises
`TypeError` (bytes are not JSON serializable).  `decrypt_data` returns its
input string unchanged when encryption is disabled. -/

/-- The input domain of `encrypt_data`: `Union[str, bytes, Dict]`. -/
inductive PyData
  | str (s : String)
  | dict (d : List (String × String))
  | bytes (b : List Nat)
deriving DecidableEq, Repr

/-- `json.dumps` on a string-valued dict. -/
def jsonDumps (d : List (String × String)) : String :=
  "\x7b" ++
    String.intercalate ", "
      (d.map (fun kv => "\"" ++ kv.1 ++ "\": \"" ++ kv.2 ++ "\"")) ++
  "\x7d"

/-- A byte view of a string (model of `str.encode('utf-8')`; code points
stand in for the encoded bytes). -/
def strBytes (s : String) : List Nat :=
  s.data.map Char.toNat

/-- `CryptoManager.encrypt_data` with `method='symmetric'`.  `enabled` is
`self.encryption_enabled`; `encSym` is `_encrypt_symmetric` and `b64e` is
`base64.b64encode(...).decode('utf-8')`, both only reached when encryption is
enabled. -/
def encrypt_data (enabled : Bool) (encSym : List Nat → List Nat)
    (b64e : List Nat → String) (data : PyData) : PyOutcome String :=
  if ¬ enabled then
    match data with
    | .str s => .ok s
    | .dict d => .ok (jsonDumps d)
    | .bytes _ => .raised "TypeError: Object of type bytes is not JSON serializable"
  else
    let data_bytes : List Nat :=
      match data with
      | .str s => strBytes s
      | .dict d => strBytes (jsonDumps d)
      | .bytes b => b
    .ok (b64e (encSym data_bytes))

/-- `CryptoManager.decrypt_data` with `method='symmetric'`: with encryption
disabled the input string comes back unchanged; otherwise base64-decode,
decrypt, and decode. -/
def decrypt_data (enabled : Bool) (decSym : List Nat → Option (List Nat))
    (b64d : String → List Nat) (decodeUtf8 : List Nat → String)
    (encrypted_data : String) : PyOutcome String :=
  if ¬ enabled then .ok encrypted_data
  else
    match decSym (b64d encrypted_data) with
    | some pt => .ok (decodeUtf8 pt)
    | none => .raised "InvalidTag"

/-! ## Concrete fixtures

Small concrete values used to instantiate the theorems. -/

/-- A configuration accepting text models up to 8 GB VRAM, no result
encryption. -/
def demoCfg : AgentConfig :=
  { supported_models := ["text"], max_vram_gb := 8, encrypt_results := false }

/-- A valid text task. -/
def demoTaskA : Task :=
  { id := "t1", model := "gpt", model_type := "text", input := "hi",
    required_vram_gb := 2 }

/-- A second valid text task. -/
def demoTaskB : Task :=
  { id := "t2", model := "gpt", model_type := "text", input := "hello",
    required_vram_gb := 2 }

/-- Agent state with `demoTaskA` currently running. -/
def busyState : AgentState :=
  { current_task := some demoTaskA, tasks_completed := 0, tasks_failed := 0 }

/-- Idle agent state. -/
def idleState : AgentState :=
  { current_task := none, tasks_completed := 0, tasks_failed := 0 }

/-- A stand-in `encrypt_data` that succeeds with the plaintext. -/
def demoEncrypt : String → Except String String := fun s => .ok s

/-- A successful execution outcome. -/
def demoRun : Except String String := .ok "out"

/-- A fresh connection manager with backoff factor 2. -/
def demoCM : ConnectionManager :=
  { max_retries := 5, backoff_factor := 2, connected := false,
    connection_failures := 0, last_connection_attempt := 0 }

/-- A rate limiter at the default 60 requests/minute whose window already
holds 60 requests, all at time 0. -/
def demoRL : RateLimiter :=
  { rate_limit_requests := 60, request_timestamps := List.replicate 60 0 }

/-- An engine with capacity 1 holding one container. -/
def demoDocker : DockerEngineState :=
  { max_containers := 1, active_containers := ["c0"] }

/-- Toy RSA pair satisfying the OAEP contract used by the theorems: a
2-byte big-endian length header, the plaintext, zero padding to 256 bytes. -/
def toyRSA : RSAKeyPair where
  enc d := toBytesBE 2 d.length ++ d ++ List.replicate (254 - d.length) 0
  dec e := some ((e.drop 2).take (fromBytesBE (e.take 2)))

/-- Toy AES-GCM satisfying the GCM contract used by the theorems. -/
def toyAES : AESGCM where
  enc _k _iv d := (d.map (· + 1), List.replicate 16 0)
  dec _k _iv _tag c := some (c.map (· - 1))

/-- A 32-byte toy AES key. -/
def toyKey : List Nat := List.replicate 32 3

/-- A 16-byte toy IV. -/
def toyIV : List Nat := List.replicate 16 9

/-- A stand-in symmetric cipher for `encrypt_data` fixtures. -/
def demoEncSym : List Nat → List Nat := fun b => b

/-- A stand-in base64 encoder for `encrypt_data` fixtures. -/
def demoB64e : List Nat → String := fun _ => ""

/-- A stand-in symmetric decryptor for `decrypt_data` fixtures. -/
def demoDecSym : List Nat → Option (List Nat) := fun b => some b

/-- A stand-in base64 decoder for `decrypt_data` fixtures. -/
def demoB64d : String → List Nat := fun _ => []

/-- A stand-in UTF-8 decoder for `decrypt_data` fixtures. -/
def demoDecode : List Nat → String := fun _ => ""

/-! ## Helper lemmas -/

/-- Once `task_accepted` has been seen, `accept_precedes_exec` accepts any
suffix. -/
theorem accept_precedes_exec_of_seen (tr : List Event) :
    accept_precedes_exec true tr = true := by
  induction tr with
  | nil => rfl
  | cons e rest ih =>
      cases e with
      | sent m => cases m <;> simpa [accept_precedes_exec] using ih
      | execStarted tid => simpa [accept_precedes_exec] using ih
      | slotReleased => simpa [accept_precedes_exec] using ih

/-! ## C1 — busy-node rejection -/

/-- C1 (counterexample): a task assignment arriving while `demoTaskA` is
running is answered with `task_rejected` whose reason is the literal
`"Node busy"`, not `"node busy"` as the claim states. -/
theorem c1_counterexample :
    (handle_task_assignment demoCfg demoEncrypt demoRun busyState demoTaskB).2 =
      [.sent (.task_rejected "t2" "Node busy")] ∧
    Event.sent (.task_rejected "t2" "node busy") ∉
      (handle_task_assignment demoCfg demoEncrypt demoRun busyState demoTaskB).2 := by
  constructor
  · rfl
  · decide

/-- C1 (amended): while a task is running, every incoming assignment is
rejected with reason `"Node busy"` and the agent state — in particular the
running task — is unchanged. -/
theorem c1_busy_rejected (cfg : AgentConfig)
    (encrypt : String → Except String String) (run : Except String String)
    (s : AgentState) (t t0 : Task) (h : s.current_task = some t0) :
    handle_task_assignment cfg encrypt run s t =
      (s, [.sent (.task_rejected t.id "Node busy")]) := by
  unfold handle_task_assignment
  rw [h]

/-- C1 (witness): the amended theorem at the concrete busy state. -/
theorem c1_witness :
    busyState.current_task = some demoTaskA ∧
    handle_task_assignment demoCfg demoEncrypt demoRun busyState demoTaskB =
      (busyState, [.sent (.task_rejected "t2" "Node busy")]) :=
  ⟨rfl, c1_busy_rejected demoCfg demoEncrypt demoRun busyState demoTaskB demoTaskA rfl⟩

/-! ## C3 — terminal report vs. slot release -/

/-- C3 (counterexample): on a concrete successful execution the trace is
status, result, *then* slot release — the terminal `task_result` is sent while
the slot is still held, refuting the claim that the report only follows the
release. -/
theorem c3_counterexample :
    (execute_task demoCfg demoEncrypt demoRun idleState demoTaskA).2 =
      [.execStarted "t1", .sent (.task_status "t1" "running"),
       .sent (.task_result "t1" "out"), .slotReleased] ∧
    terminal_only_after_release false
      (execute_task demoCfg demoEncrypt demoRun idleState demoTaskA).2 = false := by
  constructor
  · rfl
  · rfl

/-- C3 (amended): for every execution the terminal report (`task_result` on
success, `task_error` on failure) is sent while the slot is still held, and
the slot is then released in the guaranteed `finally` path as the last event;
the final state is idle regardless of outcome. -/
theorem c3_report_then_release (cfg : AgentConfig)
    (encrypt : String → Except String String) (run : Except String String)
    (s : AgentState) (t : Task) :
    (execute_task cfg encrypt run s t).1.current_task = none ∧
    ∃ m : Msg, is_terminal_report (.sent m) = true ∧
      (execute_task cfg encrypt run s t).2 =
        [.execStarted t.id, .sent (.task_status t.id "running"),
         .sent m, .slotReleased] := by
  unfold execute_task
  cases run with
  | error e => exact ⟨rfl, .task_error t.id e, rfl, rfl⟩
  | ok r =>
      by_cases hc : cfg.encrypt_results
      · simp only [hc, if_true]
        cases encrypt r with
        | error e => exact ⟨rfl, .task_error t.id e, rfl, rfl⟩
        | ok r2 => exact ⟨rfl, .task_result t.id r2, rfl, rfl⟩
      · simp only [hc, if_false]
        exact ⟨rfl, .task_result t.id r, rfl, rfl⟩

/-! ## C4 — acceptance precedes execution -/

/-- C4: for every accepted assignment (idle agent, validation passes) the
`task_accepted` message is the first event of the trace and execution starts
only afterwards. -/
theorem c4_accept_before_execution (cfg : AgentConfig)
    (encrypt : String → Except String String) (run : Except String String)
    (s : AgentState) (t : Task)
    (h1 : s.current_task = none) (h2 : validate_task cfg t = true) :
    (handle_task_assignment cfg encrypt run s t).2 =
      .sent (.task_accepted t.id) ::
        (execute_task cfg encrypt run { s with current_task := some t } t).2 ∧
    accept_precedes_exec false
      (handle_task_assignment cfg encrypt run s t).2 = true := by
  have htr : (handle_task_assignment cfg encrypt run s t).2 =
      .sent (.task_accepted t.id) ::
        (execute_task cfg encrypt run { s with current_task := some t } t).2 := by
    unfold handle_task_assignment
    rw [h1]
    simp only [h2, if_true]
  refine ⟨htr, ?_⟩
  rw [htr]
  show accept_precedes_exec true _ = true
  exact accept_precedes_exec_of_seen _

/-- C4 (witness): the acceptance-before-execution ordering on the concrete
idle agent and valid task. -/
theorem c4_witness :
    idleState.current_task = none ∧ validate_task demoCfg demoTaskA = true ∧
    accept_precedes_exec false
      (handle_task_assignment demoCfg demoEncrypt demoRun idleState demoTaskA).2 = true :=
  ⟨rfl, by decide,
   (c4_accept_before_execution demoCfg demoEncrypt demoRun idleState demoTaskA
      rfl (by decide)).2⟩

/-! ## C5 — exponential backoff -/

/-- `failuresAfter` adds one failure per step. -/
theorem failuresAfter_connection_failures (cm : ConnectionManager) (now : ℚ)
    (n : ℕ) :
    (failuresAfter cm now n).connection_failures = cm.connection_failures + n := by
  induction n with
  | zero => rfl
  | succ k ih =>
      simp [failuresAfter, ConnectionManager.on_connection_failure, ih,
        Nat.add_assoc]

/-- `failuresAfter` never changes the backoff factor. -/
theorem failuresAfter_backoff_factor (cm : ConnectionManager) (now : ℚ)
    (n : ℕ) :
    (failuresAfter cm now n).backoff_factor = cm.backoff_factor := by
  induction n with
  | zero => rfl
  | succ k ih => simp [failuresAfter, ConnectionManager.on_connection_failure, ih]

/-- C5: starting from a zero-failure state with backoff factor `base ≥ 1`,
after `n` consecutive connection failures `get_retry_delay` equals
`min(300, base ^ n)`, and the delay sequence is non-decreasing in `n`. -/
theorem c5_backoff_delay (cm : ConnectionManager) (now : ℚ)
    (h0 : cm.connection_failures = 0) (h1 : 1 ≤ cm.backoff_factor) :
    (∀ n, (failuresAfter cm now n).get_retry_delay =
        min 300 (cm.backoff_factor ^ n)) ∧
    (∀ n m, n ≤ m →
      (failuresAfter cm now n).get_retry_delay ≤
        (failuresAfter cm now m).get_retry_delay) := by
  have hd : ∀ n, (failuresAfter cm now n).get_retry_delay =
      min 300 (cm.backoff_factor ^ n) := by
    intro n
    unfold ConnectionManager.get_retry_delay
    rw [failuresAfter_backoff_factor, failuresAfter_connection_failures, h0]
    simp
  refine ⟨hd, fun n m hnm => ?_⟩
  rw [hd n, hd m]
  exact min_le_min le_rfl (pow_le_pow_right₀ h1 hnm)

/-- C5 (witness): the delay formula and monotonicity at the concrete manager
with backoff factor 2, evaluated at 5 and 9 failures. -/
theorem c5_witness :
    demoCM.connection_failures = 0 ∧ (1 : ℚ) ≤ demoCM.backoff_factor ∧
    (failuresAfter demoCM 0 5).get_retry_delay =
      min 300 (demoCM.backoff_factor ^ 5) ∧
    (failuresAfter demoCM 0 5).get_retry_delay ≤
      (failuresAfter demoCM 0 9).get_retry_delay :=
  ⟨rfl, by norm_num [demoCM],
   (c5_backoff_delay demoCM 0 rfl (by norm_num [demoCM])).1 5,
   (c5_backoff_delay demoCM 0 rfl (by norm_num [demoCM])).2 5 9 (by norm_num)⟩

/-! ## C6 — sliding-window rate limiter -/

/-- C6: with the 60-per-minute limit, a request arriving while 60 (or more)
tracked requests are still inside the rolling 60-second window is rejected
with `"Rate limit exceeded"` and produces no network call, leaving the window
unchanged; once all tracked requests are at least 60 seconds old the next
request is admitted and reaches the network. -/
theorem c6_rate_limit (now : ℚ) (st : RateLimiter)
    (hlim : st.rate_limit_requests = 60) :
    ((∀ ts ∈ st.request_timestamps, now - ts < 60) →
      60 ≤ st.request_timestamps.length →
      make_request now st = (st, .error "Rate limit exceeded", [])) ∧
    ((∀ ts ∈ st.request_timestamps, 60 ≤ now - ts) →
      (make_request now st).2 = (.ok (), [.networkCall])) := by
  constructor
  · intro hin hlen
    have hfil : st.request_timestamps.filter
        (fun ts => decide (now - ts < 60)) = st.request_timestamps :=
      List.filter_eq_self.mpr fun a ha => decide_eq_true (hin a ha)
    have hnot : ¬ st.request_timestamps.length < st.rate_limit_requests := by
      rw [hlim]; omega
    simp [make_request, check_rate_limit, hfil, hnot]
  · intro hout
    have hfil : st.request_timestamps.filter
        (fun ts => decide (now - ts < 60)) = [] :=
      List.filter_eq_nil_iff.mpr fun a ha => by
        simpa using not_lt.mpr (hout a ha)
    have hpos : (0 : ℕ) < st.rate_limit_requests := by rw [hlim]; omega
    simp [make_request, check_rate_limit, hfil, hpos]

/-- C6 (witness): with 60 requests tracked at time 0, the request at time 30
is rejected without a network call; the request at time 60 is admitted. -/
theorem c6_witness :
    demoRL.rate_limit_requests = 60 ∧
    (∀ ts ∈ demoRL.request_timestamps, (30 : ℚ) - ts < 60) ∧
    60 ≤ demoRL.request_timestamps.length ∧
    make_request 30 demoRL = (demoRL, .error "Rate limit exceeded", []) ∧
    (∀ ts ∈ demoRL.request_timestamps, 60 ≤ (60 : ℚ) - ts) ∧
    (make_request 60 demoRL).2 = (.ok (), [.networkCall]) := by
  have hin : ∀ ts ∈ demoRL.request_timestamps, (30 : ℚ) - ts < 60 := by
    intro ts hts
    rw [List.eq_of_mem_replicate hts]
    norm_num
  have hout : ∀ ts ∈ demoRL.request_timestamps, 60 ≤ (60 : ℚ) - ts := by
    intro ts hts
    rw [List.eq_of_mem_replicate hts]
    norm_num
  have hlen : 60 ≤ demoRL.request_timestamps.length := by simp [demoRL]
  exact ⟨rfl, hin, hlen, (c6_rate_limit 30 demoRL rfl).1 hin hlen, hout,
    (c6_rate_limit 60 demoRL rfl).2 hout⟩

/-! ## C7 — sandbox instance cap -/

/-- `remove_container` never grows the tracked set. -/
theorem remove_container_length_le (st : DockerEngineState) (cid : String)
    (apiOk : Bool) :
    (remove_container st cid apiOk).1.active_containers.length ≤
      st.active_containers.length := by
  unfold remove_container
  by_cases hmem : cid ∈ st.active_containers
  · by_cases hok : apiOk
    · simp only [List.elem_eq_mem, hmem, hok, decide_True, if_true]
      exact (List.erase_sublist cid st.active_containers).length_le
    · simp [hmem, hok]
  · simp [hmem]

/-- `remove_container` preserves the configured maximum. -/
theorem remove_container_max (st : DockerEngineState) (cid : String)
    (apiOk : Bool) :
    (remove_container st cid apiOk).1.max_containers = st.max_containers := by
  unfold remove_container
  by_cases hmem : cid ∈ st.active_containers
  · by_cases hok : apiOk <;> simp [hmem, hok]
  · simp [hmem]

/-- The fold inside `cleanup` preserves the bound invariant. -/
theorem cleanup_fold_invariant (remOk : String → Bool) :
    ∀ (l : List String) (acc : DockerEngineState), containerInvariant acc →
      containerInvariant
        (l.foldl (fun a cid => (remove_container a cid (remOk cid)).1) acc)
  | [], _, h => h
  | cid :: rest, acc, h => by
      apply cleanup_fold_invariant remOk rest
      unfold containerInvariant
      calc (remove_container acc cid (remOk cid)).1.active_containers.length
          ≤ acc.active_containers.length := remove_container_length_le acc cid _
        _ ≤ acc.max_containers := h
        _ = (remove_container acc cid (remOk cid)).1.max_containers :=
            (remove_container_max acc cid _).symm

/-- C7: every engine operation preserves the bound
`|active_containers| ≤ max_containers`, and at the cap `create_container`
fails fast with `"Maximum number of containers reached"`, leaving the state
unchanged — no instance is created and nothing is queued. -/
theorem c7_sandbox_bound (st : DockerEngineState) (cid : String) (apiOk : Bool)
    (remOk : String → Bool) (hinv : containerInvariant st) :
    containerInvariant (create_container st cid).1 ∧
    containerInvariant (remove_container st cid apiOk).1 ∧
    containerInvariant (start_or_stop_container st cid) ∧
    containerInvariant (cleanup st remOk) ∧
    (st.active_containers.length = st.max_containers →
      create_container st cid = (st, .error "Maximum number of containers reached")) := by
  refine ⟨?_, ?_, hinv, cleanup_fold_invariant remOk _ st hinv, ?_⟩
  · unfold create_container
    by_cases hcap : st.max_containers ≤ st.active_containers.length
    · simpa [hcap] using hinv
    · unfold containerInvariant
      simp only [hcap, if_false]
      simpa using Nat.succ_le_of_lt (not_le.mp hcap)
  · unfold containerInvariant
    rw [remove_container_max]
    exact le_trans (remove_container_length_le st cid apiOk) hinv
  · intro hfull
    unfold create_container
    simp [hfull]

/-- C7 (witness): the concrete engine at capacity 1 with one live container
satisfies the invariant under every operation, and its next create call fails
fast. -/
theorem c7_witness :
    containerInvariant demoDocker ∧
    create_container demoDocker "c1" =
      (demoDocker, .error "Maximum number of containers reached") := by
  have hinv : containerInvariant demoDocker := by
    unfold containerInvariant demoDocker
    simp
  exact ⟨hinv,
    (c7_sandbox_bound demoDocker "c1" true (fun _ => true) hinv).2.2.2.2 rfl⟩

/-! ## C8 — token verification failure modes -/

/-- C8: a token whose `exp` lies in the past verifies to `none` (the expiry
is caught, not propagated), and a token signed under a different secret —
whenever the two signatures actually differ, which is the collision-free case
of HS256 — also verifies to `none`. -/
theorem c8_jwt_verification {σ : Type} [DecidableEq σ]
    (mkSig : String → JwtClaims → σ) (secret otherSecret : String)
    (now expiry now2 : ℚ) (payload : List (String × String)) :
    (((create_jwt_token mkSig secret now expiry payload).claims.exp < now2) →
      verify_jwt_token mkSig secret now2
        (create_jwt_token mkSig secret now expiry payload) = none) ∧
    ((mkSig otherSecret
        (create_jwt_token mkSig otherSecret now expiry payload).claims ≠
      mkSig secret
        (create_jwt_token mkSig otherSecret now expiry payload).claims) →
      verify_jwt_token mkSig secret now2
        (create_jwt_token mkSig otherSecret now expiry payload) = none) := by
  constructor
  · intro hexp
    unfold verify_jwt_token
    simp only [create_jwt_token, ne_eq, not_true_eq_false, if_false]
    have hexp' : now + expiry * 3600 < now2 := hexp
    rw [if_pos hexp']
  · intro hdiff
    unfold verify_jwt_token
    rw [if_pos]
    exact hdiff

/-- C8 (witness): with the signature modelled as the signing secret itself,
a token expired at verification time and a token signed under secret `"b"`
but verified under `"a"` both yield `none`. -/
theorem c8_witness :
    ((create_jwt_token (fun s _ => s) "a" 0 1 []).claims.exp < 4000) ∧
    verify_jwt_token (fun s _ => s) "a" 4000
      (create_jwt_token (fun s _ => s) "a" 0 1 []) = none ∧
    verify_jwt_token (fun s _ => s) "a" 0
      (create_jwt_token (fun s _ => s) "b" 0 1 []) = none := by
  have hexp : (create_jwt_token (fun s _ => s) "a" 0 1 []).claims.exp < 4000 := by
    norm_num [create_jwt_token]
  refine ⟨hexp,
    (c8_jwt_verification (fun s _ => s) "a" "b" 0 1 4000 []).1 hexp,
    (c8_jwt_verification (fun s _ => s) "a" "b" 0 1 0 []).2 ?_⟩
  decide

/-! ## C2 — hybrid encryption round-trip and wire format -/

/-- `toBytesBE n v` always has exactly `n` bytes. -/
theorem toBytesBE_length (n v : Nat) : (toBytesBE n v).length = n := by
  induction n generalizing v with
  | zero => rfl
  | succ k ih => simp [toBytesBE, ih]

/-- Folding the big-endian digits accumulates `acc * 256 ^ n + v % 256 ^ n`. -/
theorem foldl_toBytesBE (n : Nat) :
    ∀ v acc, (toBytesBE n v).foldl (fun a b => a * 256 + b) acc =
      acc * 256 ^ n + v % 256 ^ n := by
  induction n with
  | zero => intro v acc; simp [toBytesBE, Nat.mod_one]
  | succ k ih =>
      intro v acc
      rw [toBytesBE, List.foldl_append, ih]
      have hmm : v % (256 ^ k * 256) = v % 256 + 256 * (v / 256 % 256 ^ k) := by
        rw [mul_comm]; exact Nat.mod_mul
      simp only [List.foldl_cons, List.foldl_nil, pow_succ, hmm]
      ring

/-- `int.from_bytes` inverts `int.to_bytes(n, 'big')` for values that fit. -/
theorem fromBytesBE_toBytesBE (n v : Nat) (h : v < 256 ^ n) :
    fromBytesBE (toBytesBE n v) = v := by
  unfold fromBytesBE
  rw [foldl_toBytesBE]
  simp [Nat.mod_eq_of_lt h]

/-- Taking the length of the left part of an append yields the left part. -/
theorem take_append_of_length {α : Type} (x y : List α) {n : Nat}
    (h : x.length = n) : (x ++ y).take n = x := by
  subst h; exact List.take_left x y

/-- Dropping the length of the left part of an append yields the right part. -/
theorem drop_append_of_length {α : Type} (x y : List α) {n : Nat}
    (h : x.length = n) : (x ++ y).drop n = y := by
  subst h; exact List.drop_left x y

/-- `_hybrid_decrypt` applied to the exact wire layout slices the components
back out and hands them to RSA unwrap and AES decrypt. -/
theorem hybrid_decrypt_wire (rsa : RSAKeyPair) (aes : AESGCM)
    (K I T C ak : List Nat) (hK : K.length = 256) (hI : I.length = 16)
    (hT : T.length = 16) (hdec : rsa.dec K = some ak) :
    hybrid_decrypt rsa aes (toBytesBE 4 256 ++ K ++ I ++ T ++ C) =
      aes.dec ak I T C := by
  set E : List Nat := toBytesBE 4 256 ++ K ++ I ++ T ++ C with hE
  have hEassoc : E = toBytesBE 4 256 ++ (K ++ (I ++ (T ++ C))) := by
    simp [hE, List.append_assoc]
  have htake4 : E.take 4 = toBytesBE 4 256 := by
    rw [hEassoc]; exact take_append_of_length _ _ (toBytesBE_length 4 256)
  have h256 : fromBytesBE (toBytesBE 4 256) = 256 :=
    fromBytesBE_toBytesBE 4 256 (by norm_num)
  have hd1 : E.drop 4 = K ++ (I ++ (T ++ C)) := by
    rw [hEassoc]; exact drop_append_of_length _ _ (toBytesBE_length 4 256)
  have hkey : (E.drop 4).take 256 = K := by
    rw [hd1]; exact take_append_of_length _ _ hK
  have hd2 : E.drop (4 + 256) = I ++ (T ++ C) := by
    rw [← List.drop_drop, hd1]; exact drop_append_of_length _ _ hK
  have hiv : (E.drop (4 + 256)).take 16 = I := by
    rw [hd2]; exact take_append_of_length _ _ hI
  have hd3 : E.drop (4 + 256 + 16) = T ++ C := by
    rw [← List.drop_drop, hd2]; exact drop_append_of_length _ _ hI
  have htag : (E.drop (4 + 256 + 16)).take 16 = T := by
    rw [hd3]; exact take_append_of_length _ _ hT
  have hd4 : E.drop (4 + 256 + 32) = C := by
    have harith : 4 + 256 + 32 = 4 + 256 + 16 + 16 := by norm_num
    rw [harith, ← List.drop_drop, hd3]
    exact drop_append_of_length _ _ hT
  unfold hybrid_decrypt
  rw [htake4, h256, hkey, hdec, hiv, htag, hd4]

/-- C2: assuming the `cryptography` library contracts for RSA-2048
OAEP(SHA-256) (256-byte ciphertexts inverting encryption up to 190 bytes) and
AES-256-GCM (length-preserving ciphertext, 16-byte tag, decryption inverting
encryption), `_decrypt_asymmetric` inverts `_encrypt_asymmetric` for every
payload; payloads of at most 190 bytes use the direct RSA path (256-byte
ciphertext), and larger payloads use the hybrid wire format: 4-byte
big-endian wrapped-key length (256), the wrapped key, the 16-byte IV, the
16-byte GCM tag, then the length-preserving AES ciphertext. -/
theorem c2_asymmetric_roundtrip (rsa : RSAKeyPair) (aes : AESGCM)
    (aes_key iv : List Nat)
    (hRSAlen : ∀ d : List Nat, d.length ≤ 190 → (rsa.enc d).length = 256)
    (hRSAdec : ∀ d : List Nat, d.length ≤ 190 → rsa.dec (rsa.enc d) = some d)
    (hCTlen : ∀ k i d, (aes.enc k i d).1.length = d.length)
    (hTaglen : ∀ k i d, (aes.enc k i d).2.length = 16)
    (hAESdec : ∀ k i d, aes.dec k i (aes.enc k i d).2 (aes.enc k i d).1 = some d)
    (hKey : aes_key.length = 32) (hIV : iv.length = 16) (data : List Nat) :
    decrypt_asymmetric rsa aes (encrypt_asymmetric rsa aes aes_key iv data) =
      some data ∧
    (data.length ≤ 190 →
      encrypt_asymmetric rsa aes aes_key iv data = rsa.enc data ∧
      (encrypt_asymmetric rsa aes aes_key iv data).length = 256) ∧
    (190 < data.length →
      encrypt_asymmetric rsa aes aes_key iv data =
        toBytesBE 4 256 ++ rsa.enc aes_key ++ iv ++
          (aes.enc aes_key iv data).2 ++ (aes.enc aes_key iv data).1 ∧
      (rsa.enc aes_key).length = 256 ∧
      (aes.enc aes_key iv data).2.length = 16 ∧
      (aes.enc aes_key iv data).1.length = data.length) := by
  have hK190 : aes_key.length ≤ 190 := by rw [hKey]; norm_num
  have hK256 : (rsa.enc aes_key).length = 256 := hRSAlen aes_key hK190
  by_cases hbig : 190 < data.length
  · have henc : encrypt_asymmetric rsa aes aes_key iv data =
        toBytesBE 4 256 ++ rsa.enc aes_key ++ iv ++
          (aes.enc aes_key iv data).2 ++ (aes.enc aes_key iv data).1 := by
      unfold encrypt_asymmetric hybrid_encrypt
      rw [if_pos hbig, hK256]
    have hlen : (encrypt_asymmetric rsa aes aes_key iv data).length =
        292 + data.length := by
      rw [henc]
      simp [List.length_append, toBytesBE_length, hK256, hIV,
        hTaglen aes_key iv data, hCTlen aes_key iv data]
      omega
    refine ⟨?_, fun hsmall => absurd hbig (not_lt.mpr hsmall),
      fun _ => ⟨henc, hK256, hTaglen aes_key iv data, hCTlen aes_key iv data⟩⟩
    unfold decrypt_asymmetric
    rw [if_pos (by rw [hlen]; omega), henc,
      hybrid_decrypt_wire rsa aes _ _ _ _ aes_key hK256 hIV
        (hTaglen aes_key iv data) (hRSAdec aes_key hK190)]
    exact hAESdec aes_key iv data
  · have hsmall : data.length ≤ 190 := not_lt.mp hbig
    have henc : encrypt_asymmetric rsa aes aes_key iv data = rsa.enc data := by
      unfold encrypt_asymmetric
      rw [if_neg hbig]
    have hlen : (encrypt_asymmetric rsa aes aes_key iv data).length = 256 := by
      rw [henc]; exact hRSAlen data hsmall
    refine ⟨?_, fun _ => ⟨henc, hlen⟩, fun hb => absurd hb hbig⟩
    unfold decrypt_asymmetric
    rw [if_neg (by rw [hlen]; omega), henc]
    exact hRSAdec data hsmall

/-- The toy RSA ciphertext is always 256 bytes for plaintexts that fit. -/
theorem toyRSA_enc_length (d : List Nat) (h : d.length ≤ 190) :
    (toyRSA.enc d).length = 256 := by
  simp [toyRSA, List.length_append, toBytesBE_length]
  omega

/-- The toy RSA decryption inverts toy RSA encryption. -/
theorem toyRSA_dec_enc (d : List Nat) (h : d.length ≤ 190) :
    toyRSA.dec (toyRSA.enc d) = some d := by
  simp only [toyRSA]
  have hA : (toBytesBE 2 d.length).length = 2 := toBytesBE_length 2 d.length
  rw [List.append_assoc,
    take_append_of_length _ _ hA, drop_append_of_length _ _ hA,
    fromBytesBE_toBytesBE 2 d.length (by omega),
    take_append_of_length _ _ rfl]

/-- The toy AES ciphertext has the plaintext's length. -/
theorem toyAES_ct_length (k i d : List Nat) :
    (toyAES.enc k i d).1.length = d.length := by
  simp [toyAES]

/-- The toy AES tag is 16 bytes. -/
theorem toyAES_tag_length (k i d : List Nat) :
    (toyAES.enc k i d).2.length = 16 := by
  simp [toyAES]

/-- The toy AES decryption inverts toy AES encryption. -/
theorem toyAES_dec_enc (k i d : List Nat) :
    toyAES.dec k i (toyAES.enc k i d).2 (toyAES.enc k i d).1 = some d := by
  simp only [toyAES, List.map_map]
  have hid : ((fun x => x - 1) ∘ fun x : Nat => x + 1) = id := by
    funext b; simp
  rw [hid, List.map_id]

/-- C2 (witness): the round-trip at the toy primitives for payload sizes
1 and 191 (one per branch of the 190-byte threshold). -/
theorem c2_witness :
    decrypt_asymmetric toyRSA toyAES
      (encrypt_asymmetric toyRSA toyAES toyKey toyIV [5]) = some [5] ∧
    decrypt_asymmetric toyRSA toyAES
      (encrypt_asymmetric toyRSA toyAES toyKey toyIV (List.replicate 191 7)) =
      some (List.replicate 191 7) :=
  ⟨(c2_asymmetric_roundtrip toyRSA toyAES toyKey toyIV toyRSA_enc_length
      toyRSA_dec_enc toyAES_ct_length toyAES_tag_length toyAES_dec_enc
      (by simp [toyKey]) (by simp [toyIV]) [5]).1,
   (c2_asymmetric_roundtrip toyRSA toyAES toyKey toyIV toyRSA_enc_length
      toyRSA_dec_enc toyAES_ct_length toyAES_tag_length toyAES_dec_enc
      (by simp [toyKey]) (by simp [toyIV]) (List.replicate 191 7)).1⟩

/-! ## C9 — key rotation -/

/-- C9: on the normal on-disk state (a 32-byte `symmetric.key` present),
`rotate_keys` raises `NameError` — `crypto.py` never imports `shutil`, so the
backup loop's first `shutil.copy2` call fails and the `except` clause
re-raises.  Moreover, even with `shutil` available, the flow as written would
re-load the existing key (the loaders find the old files still on disk), so
the "rotated" symmetric key would equal the old one rather than a fresh
generation. -/
theorem c9_rotate_keys_broken (oldKey freshSym freshPriv freshPub : List Nat)
    (h32 : oldKey.length = 32) :
    rotate_keys ⟨[("symmetric.key", oldKey)]⟩ freshSym freshPriv freshPub =
      .raised "NameError: name shutil is not defined" ∧
    (rotate_keys_with_shutil ⟨[("symmetric.key", oldKey)]⟩
        freshSym freshPriv freshPub).2.2.1 = oldKey := by
  constructor
  · rfl
  · unfold rotate_keys_with_shutil load_or_generate_symmetric_key
    simp [CryptoDir.lookup, load_or_generate_rsa_keys, CryptoDir.write, h32]

/-- C9 (witness): the failing input with a concrete 32-byte key. -/
theorem c9_witness :
    (List.replicate 32 1).length = 32 ∧
    rotate_keys ⟨[("symmetric.key", List.replicate 32 1)]⟩
        (List.replicate 32 2) [9] [8] =
      .raised "NameError: name shutil is not defined" ∧
    (rotate_keys_with_shutil ⟨[("symmetric.key", List.replicate 32 1)]⟩
        (List.replicate 32 2) [9] [8]).2.2.1 = List.replicate 32 1 := by
  have h32 : (List.replicate 32 1).length = 32 := by simp
  exact ⟨h32,
    (c9_rotate_keys_broken (List.replicate 32 1) (List.replicate 32 2) [9] [8] h32).1,
    (c9_rotate_keys_broken (List.replicate 32 1) (List.replicate 32 2) [9] [8] h32).2⟩

/-! ## C10 — plaintext passthrough when encryption is disabled -/

/-- C10 (counterexample): with encryption disabled, a `bytes` input hits
`json.dumps(b"...")`, which raises `TypeError` — so "for every input … rather
than an error being raised" fails on the `bytes` arm of the declared
`Union[str, bytes, Dict]` domain. -/
theorem c10_counterexample :
    encrypt_data false demoEncSym demoB64e (.bytes [0]) =
      .raised "TypeError: Object of type bytes is not JSON serializable" := by
  rfl

/-- C10 (amended): with `enable_encryption` false, `encrypt_data` returns a
string input unchanged and a dict input as its JSON serialization, performing
no encryption, and `decrypt_data` returns its input string unchanged; only a
`bytes` input fails (it is not JSON serializable). -/
theorem c10_passthrough (encSym : List Nat → List Nat)
    (b64e : List Nat → String) (decSym : List Nat → Option (List Nat))
    (b64d : String → List Nat) (decodeUtf8 : List Nat → String) :
    (∀ s, encrypt_data false encSym b64e (.str s) = .ok s) ∧
    (∀ d, encrypt_data false encSym b64e (.dict d) = .ok (jsonDumps d)) ∧
    (∀ x, decrypt_data false decSym b64d decodeUtf8 x = .ok x) :=
  ⟨fun _ => rfl, fun _ => rfl, fun _ => rfl⟩

end NeuroGrid
